import Mathlib

/-!
Shallow embedding of the session-persistence layer of the repository
(`src/core/services/CloudSessionStorage.py`, class `CloudSessionStorage`).

Modelling conventions:
* A Python session dict is `SessionData`: every key the code reads is an
  `Option` field (`none` = key absent; an absent key and `dict.get` defaults
  follow the source line by line).
* `datetime` instants are natural numbers; `isoformat` is modelled as the
  decimal rendering `toString : Nat → String` and `datetime.fromisoformat`
  as `parse_timestamp` (a parse failure raises in Python and the surrounding
  `except` turns it into the same result the model gives).
* Each storage backend is addressed by its registry name (a `String`,
  exactly the names the source pushes into `storage_methods`).  Backends
  whose physical medium is outside the process (cookies, localStorage, the
  connection pool) are abstracted by a result function (`fetch`, `saveOk`,
  `clearOk`); the volatile `st.session_state` backend and the database
  query logic are modelled concretely because the claims depend on them.
* Exceptions never escape an adapter in the source (every branch of the
  per-method loop is wrapped in `try/except`); a raising adapter is
  therefore the same as one returning a failure, which the abstract result
  functions already cover.
-/

set_option autoImplicit false
set_option maxRecDepth 8000

namespace CloudSession

/-- A session dict as produced by `save_session` / the backend loaders.
Fields are `Option`s because loaded dicts may lack keys. -/
structure SessionData where
  username : Option String
  email : Option String
  role : Option String
  signout : Option Bool
  timestamp : Option String
  session_id : Option String
  expires_at : Option String
deriving DecidableEq, Repr

/-- The full record `save_session` builds (all seven keys present). -/
structure SessionRecord where
  username : String
  email : String
  role : String
  signout : Bool
  timestamp : String
  session_id : String
  expires_at : String
deriving DecidableEq, Repr

/-- View a full record as a dict with every key present. -/
def SessionRecord.toData (r : SessionRecord) : SessionData :=
  { username := some r.username
    email := some r.email
    role := some r.role
    signout := some r.signout
    timestamp := some r.timestamp
    session_id := some r.session_id
    expires_at := some r.expires_at }

/-- One decimal digit. -/
def digit? (c : Char) : Option Nat :=
  if 48 ≤ c.toNat ∧ c.toNat ≤ 57 then some (c.toNat - 48) else none

/-- Accumulate decimal digits; any non-digit fails the parse. -/
def parse_nat_go : List Char → Nat → Option Nat
  | [], acc => some acc
  | c :: cs, acc =>
    match digit? c with
    | some d => parse_nat_go cs (acc * 10 + d)
    | none => none

/-- Model of `datetime.fromisoformat` on the rendered instants: parse the
decimal rendering back, failing (raising, in Python) on anything else. -/
def parse_timestamp (s : String) : Option Nat :=
  match s.data with
  | [] => none
  | c :: cs => parse_nat_go (c :: cs) 0

/-- Model of `CloudSessionStorage._is_session_valid`, evaluated at instant `now`:
reject on missing/empty `username`; reject when `signout` (absent defaults
to `True`); the expiration check runs only under the truthiness guard
`if expires_at_str:`, so it is skipped both when the `expires_at` key is
absent and when its value is the empty string; a truthy value is parsed
(a parse failure raises `ValueError`, which the enclosing `except` turns
into `False`) and the record is rejected when `now` is strictly past it;
otherwise accept. -/
def is_session_valid (now : Nat) (d : SessionData) : Bool :=
  if d.username.getD "" = "" then false
  else if d.signout.getD true then false
  else
    match d.expires_at with
    | some s =>
      if s = "" then true
      else
        match parse_timestamp s with
        | some e => if now > e then false else true
        | none => false
    | none => true

/-- Model of `CloudSessionStorage._init_storage_methods`: the ordered registry.
Each flag says whether the corresponding mechanism initialised
successfully; the volatile `session_state` backend is always appended. -/
def init_storage_methods (hasStx hasLegacy hasJs hasDb : Bool) : List String :=
  (if hasStx then ["stx_cookies"] else []) ++
  (if hasLegacy then ["legacy_cookies"] else []) ++
  (if hasJs then ["js_local_storage"] else []) ++
  (if hasDb then ["database"] else []) ++
  ["session_state"]

/-- The five `st.session_state` keys the store reads and writes. -/
structure VolatileScope where
  username : String
  useremail : String
  role : String
  signout : Bool
  session_id : Option String
deriving DecidableEq, Repr

/-- Model of `CloudSessionStorage._save_session_state`: overwrite every scope field
from the dict (absent keys fall back to the source's `get` defaults). -/
def save_session_state (d : SessionData) : VolatileScope :=
  { username := d.username.getD ""
    useremail := d.email.getD ""
    role := d.role.getD ""
    signout := d.signout.getD true
    session_id := some (d.session_id.getD "") }

/-- Model of `CloudSessionStorage._update_session_state` (same assignments as
`_save_session_state`). -/
def update_session_state (d : SessionData) : VolatileScope :=
  save_session_state d

/-- Model of `CloudSessionStorage._clear_session_state`: blank the fields, force
`signout`, delete the `session_id` key. -/
def clear_session_state : VolatileScope :=
  { username := "", useremail := "", role := "", signout := true
    session_id := none }

/-- Model of `CloudSessionStorage._load_session_state`: only answers when the scope
holds a non-empty `username` with `signout` false, and then synthesises a
fresh dict whose `timestamp` and `expires_at` are recomputed from the
current instant. -/
def load_session_state (now timeout : Nat) (scope : VolatileScope) :
    Option SessionData :=
  if scope.username ≠ "" ∧ scope.signout = false then
    some { username := some scope.username
           email := some scope.useremail
           role := some scope.role
           signout := some scope.signout
           session_id := some (scope.session_id.getD "")
           timestamp := some (toString now)
           expires_at := some (toString (now + timeout)) }
  else none

/-- The dict `save_session` builds: fresh `timestamp`, `signout = False`,
`expires_at = now + session_timeout`. -/
def build_session_data (now timeout : Nat)
    (username email role sid : String) : SessionData :=
  { username := some username
    email := some email
    role := some role
    signout := some false
    timestamp := some (toString now)
    session_id := some sid
    expires_at := some (toString (now + timeout)) }

/-- The per-method body of the `save_session` loop: the volatile
`session_state` branch always updates the scope and counts as a success;
every other backend's outcome is `saveOk` (exceptions count as failure). -/
def save_session_go (d : SessionData) (saveOk : String → Bool) :
    List String → VolatileScope → VolatileScope × Nat
  | [], scope => (scope, 0)
  | m :: rest, scope =>
    if m = "session_state" then
      let r := save_session_go d saveOk rest (save_session_state d)
      (r.1, r.2 + 1)
    else
      let r := save_session_go d saveOk rest scope
      (r.1, if saveOk m then r.2 + 1 else r.2)

/-- Model of `CloudSessionStorage.save_session`: build the record, fan it out to
every registered backend, return `success_count > 0`. -/
def save_session (now timeout : Nat) (username email role sid : String)
    (methods : List String) (saveOk : String → Bool)
    (scope : VolatileScope) : VolatileScope × Bool :=
  let d := build_session_data now timeout username email role sid
  let r := save_session_go d saveOk methods scope
  (r.1, decide (r.2 > 0))

/-- One row of the `cloud_user_sessions` table.  `record` is the `JSONB`
`session_data` column (the full dict `_save_database` serialised). -/
structure DbRow where
  session_id : String
  username : String
  email : String
  role : String
  expires_at : Nat
  last_accessed : Nat
  record : SessionData
deriving DecidableEq, Repr

/-- Select as `ORDER BY last_accessed DESC LIMIT 1` does over candidate rows:
keep the row with the greatest `last_accessed` (first such row on ties). -/
def most_recently_accessed (rows : List DbRow) : Option DbRow :=
  rows.foldl
    (fun best r =>
      match best with
      | none => some r
      | some b => if r.last_accessed > b.last_accessed then some r else some b)
    none

/-- Model of `CloudSessionStorage._load_database`: bail out when there is no pool,
then bail out when the volatile scope's `username` is empty (the query is
keyed by `st.session_state.get("username", "")`); otherwise return the
stored dict of the most recently accessed non-expired row for that user. -/
def load_database (now : Nat) (hasDb : Bool) (scopeUsername : String)
    (db : List DbRow) : Option SessionData :=
  if !hasDb then none
  else if scopeUsername = "" then none
  else
    (most_recently_accessed
      (db.filter
        (fun r => r.username = scopeUsername ∧ r.expires_at > now))).map
      DbRow.record

/-- Model of `CloudSessionStorage._clear_database`: refuse (returning `False`, so
deleting nothing) when there is no pool or the username is empty;
otherwise delete every row of that user. -/
def clear_database (hasDb : Bool) (username : String) (db : List DbRow) :
    List DbRow × Bool :=
  if !hasDb ∨ username = "" then (db, false)
  else (db.filter (fun r => ¬(r.username = username)), true)

/-- The dispatch inside the `load_session` loop: the volatile
`session_state` backend is computed from the scope; every other backend's
answer is the abstract `fetch` (exceptions/absence are `none`). -/
def backend_load (now timeout : Nat) (fetch : String → Option SessionData)
    (scope : VolatileScope) (m : String) : Option SessionData :=
  if m = "session_state" then load_session_state now timeout scope
  else fetch m

/-- The `load_session` loop: first backend whose dict passes
`_is_session_valid` wins (returned with the backend's name); absent or
invalid dicts fall through to the next backend. -/
def load_session_go (now timeout : Nat) (fetch : String → Option SessionData)
    (scope : VolatileScope) : List String → Option (String × SessionData)
  | [] => none
  | m :: rest =>
    match backend_load now timeout fetch scope m with
    | some d =>
      if is_session_valid now d then some (m, d)
      else load_session_go now timeout fetch scope rest
    | none => load_session_go now timeout fetch scope rest

/-- Model of `CloudSessionStorage._resave_to_persistent_storage`: touches exactly the
client-tier methods present in the registry, in this fixed order; each
save is attempted independently and its outcome is discarded. -/
def resave_targets (methods : List String) : List String :=
  ["stx_cookies", "legacy_cookies", "js_local_storage"].filter
    (fun m => m ∈ methods)

/-- Result of one `load_session` call: the returned dict, the volatile
scope afterwards, and the client-tier backends re-saved during the call. -/
structure LoadResult where
  record : Option SessionData
  scope : VolatileScope
  resaved : List String
deriving DecidableEq, Repr

/-- Model of `CloudSessionStorage.load_session`: walk the registry; on the first
valid dict, update the volatile scope, re-save to the client tier when the
dict came from `database` or `session_state`, and return it.  When no
backend yields a valid dict, blank the volatile scope and return `None`. -/
def load_session (now timeout : Nat) (methods : List String)
    (fetch : String → Option SessionData) (scope : VolatileScope) :
    LoadResult :=
  match load_session_go now timeout fetch scope methods with
  | some (m, d) =>
    { record := some d
      scope := update_session_state d
      resaved :=
        if m = "database" ∨ m = "session_state" then resave_targets methods
        else [] }
  | none => { record := none, scope := clear_session_state, resaved := [] }

/-- Model of `username = username or st.session_state.get("username", "")`: an
absent or empty argument falls back to the volatile scope's username. -/
def resolve_username (arg : Option String) (scope : VolatileScope) : String :=
  match arg with
  | some u => if u = "" then scope.username else u
  | none => scope.username

/-- The per-method body of the `clear_session` loop.  `database` clears via
`_clear_database` (threading the table through); `session_state` always
blanks the scope and counts; the client backends' outcomes are `clearOk`. -/
def clear_session_go (username : String) (clearOk : String → Bool)
    (hasDb : Bool) :
    List String → VolatileScope → List DbRow →
    VolatileScope × List DbRow × Nat
  | [], scope, db => (scope, db, 0)
  | m :: rest, scope, db =>
    if m = "session_state" then
      let r := clear_session_go username clearOk hasDb rest clear_session_state db
      (r.1, r.2.1, r.2.2 + 1)
    else if m = "database" then
      let step := clear_database hasDb username db
      let r := clear_session_go username clearOk hasDb rest scope step.1
      (r.1, r.2.1, if step.2 then r.2.2 + 1 else r.2.2)
    else
      let r := clear_session_go username clearOk hasDb rest scope db
      (r.1, r.2.1, if clearOk m then r.2.2 + 1 else r.2.2)

/-- Model of `CloudSessionStorage.clear_session`: resolve the username, fan the
clear out to every backend, return `success_count > 0`. -/
def clear_session (arg : Option String) (methods : List String)
    (clearOk : String → Bool) (hasDb : Bool) (scope : VolatileScope)
    (db : List DbRow) : VolatileScope × List DbRow × Bool :=
  let username := resolve_username arg scope
  let r := clear_session_go username clearOk hasDb methods scope db
  (r.1, r.2.1, decide (r.2.2 > 0))

/-- A JSON scalar as it appears in the session dict (`json.dumps` /
`json.loads` and the base64 layer are exact inverses on such objects, so
the stx-cookie payload is modelled at the level of the parsed object). -/
inductive JsonVal where
  | str (s : String)
  | bool (b : Bool)
deriving DecidableEq, Repr

/-- Model of `CloudSessionStorage._save_stx_cookies`: the JSON object written into
the cookie slot, keys in the order `save_session` builds the dict. -/
def stx_encode (r : SessionRecord) : List (String × JsonVal) :=
  [("username", .str r.username), ("email", .str r.email),
   ("role", .str r.role), ("signout", .bool r.signout),
   ("timestamp", .str r.timestamp), ("session_id", .str r.session_id),
   ("expires_at", .str r.expires_at)]

/-- Read a string-valued key from a parsed JSON object. -/
def lookup_str (kvs : List (String × JsonVal)) (k : String) : Option String :=
  match kvs.lookup k with
  | some (.str s) => some s
  | _ => none

/-- Read a boolean-valued key from a parsed JSON object. -/
def lookup_bool (kvs : List (String × JsonVal)) (k : String) : Option Bool :=
  match kvs.lookup k with
  | some (.bool b) => some b
  | _ => none

/-- Model of `CloudSessionStorage._load_stx_cookies`: decode the cookie payload back
into the session dict (the source returns the parsed object unchanged; the
keys are those every consumer reads). -/
def stx_decode (kvs : List (String × JsonVal)) : SessionData :=
  { username := lookup_str kvs "username"
    email := lookup_str kvs "email"
    role := lookup_str kvs "role"
    signout := lookup_bool kvs "signout"
    timestamp := lookup_str kvs "timestamp"
    session_id := lookup_str kvs "session_id"
    expires_at := lookup_str kvs "expires_at" }

/-- Python's `str` on the values stored in the session dict (identity on
strings, `"True"`/`"False"` on the boolean `signout`). -/
def py_str_bool (b : Bool) : String :=
  if b then "True" else "False"

/-- The legacy cookie jar: one stringly-typed slot per session key.  An
empty string and an absent cookie are indistinguishable to the loader
(both are falsy), so absence is modelled as `""`. -/
structure LegacyStore where
  username : String
  email : String
  role : String
  signout : String
  timestamp : String
  session_id : String
  expires_at : String
deriving DecidableEq, Repr

/-- Model of `CloudSessionStorage._save_legacy_cookies`: write `str(value)` for each
key of the dict. -/
def legacy_encode (r : SessionRecord) : LegacyStore :=
  { username := r.username
    email := r.email
    role := r.role
    signout := py_str_bool r.signout
    timestamp := r.timestamp
    session_id := r.session_id
    expires_at := r.expires_at }

/-- Model of `CloudSessionStorage._load_legacy_cookies`: collect the truthy cookie
values (dropping empty ones), require a non-empty `username`, and coerce
`signout` to a boolean via `get("signout", "True") == "True"`. -/
def legacy_decode (s : LegacyStore) : Option SessionData :=
  if s.username = "" then none
  else
    some { username := some s.username
           email := if s.email = "" then none else some s.email
           role := if s.role = "" then none else some s.role
           signout :=
             some ((if s.signout = "" then "True" else s.signout) = "True")
           timestamp := if s.timestamp = "" then none else some s.timestamp
           session_id :=
             if s.session_id = "" then none else some s.session_id
           expires_at :=
             if s.expires_at = "" then none else some s.expires_at }

/-! SHA-256, as used by `_generate_session_id` via `hashlib.sha256` on the
UTF-8 bytes of `f"{username}_{timestamp}_{uuid4}"` (the inputs are ASCII,
so the byte string is the list of character codes).  Words are naturals
reduced modulo `2 ^ 32`. -/

/-- Reduce to a 32-bit word. -/
def toW32 (n : Nat) : Nat := n % 4294967296

/-- Right rotation of a 32-bit word. -/
def rotr32 (n x : Nat) : Nat := toW32 ((x >>> n) ||| (x <<< (32 - n)))

/-- The 64 SHA-256 round constants (decimal renderings of the standard
fractional parts of the cube roots of the first 64 primes). -/
def sha_K : List Nat :=
  [1116352408, 1899447441, 3049323471, 3921009573,
   961987163, 1508970993, 2453635748, 2870763221,
   3624381080, 310598401, 607225278, 1426881987,
   1925078388, 2162078206, 2614888103, 3248222580,
   3835390401, 4022224774, 264347078, 604807628,
   770255983, 1249150122, 1555081692, 1996064986,
   2554220882, 2821834349, 2952996808, 3210313671,
   3336571891, 3584528711, 113926993, 338241895,
   666307205, 773529912, 1294757372, 1396182291,
   1695183700, 1986661051, 2177026350, 2456956037,
   2730485921, 2820302411, 3259730800, 3345764771,
   3516065817, 3600352804, 4094571909, 275423344,
   430227734, 506948616, 659060556, 883997877,
   958139571, 1322822218, 1537002063, 1747873779,
   1955562222, 2024104815, 2227730452, 2361852424,
   2428436474, 2756734187, 3204031479, 3329325298]

/-- The eight SHA-256 working variables. -/
structure Sha256State where
  a : Nat
  b : Nat
  c : Nat
  d : Nat
  e : Nat
  f : Nat
  g : Nat
  h : Nat
deriving DecidableEq, Repr

/-- The SHA-256 initial hash value (decimal renderings). -/
def sha256_init : Sha256State :=
  ⟨1779033703, 3144134277, 1013904242, 2773480762,
   1359893119, 2600822924, 528734635, 1541459225⟩

/-- One compression round, fed the round constant and schedule word. -/
def sha_round (st : Sha256State) (kw : Nat × Nat) : Sha256State :=
  let S1 := rotr32 6 st.e ^^^ rotr32 11 st.e ^^^ rotr32 25 st.e
  let ch := (st.e &&& st.f) ^^^ ((st.e ^^^ 4294967295) &&& st.g)
  let t1 := toW32 (st.h + S1 + ch + kw.1 + kw.2)
  let S0 := rotr32 2 st.a ^^^ rotr32 13 st.a ^^^ rotr32 22 st.a
  let maj := (st.a &&& st.b) ^^^ (st.a &&& st.c) ^^^ (st.b &&& st.c)
  let t2 := toW32 (S0 + maj)
  { a := toW32 (t1 + t2), b := st.a, c := st.b, d := st.c
    e := toW32 (st.d + t1), f := st.e, g := st.f, h := st.g }

/-- Extend the message schedule by one word. -/
def sha_extend (w : Array Nat) (i : Nat) : Array Nat :=
  let x := w.getD (i - 15) 0
  let y := w.getD (i - 2) 0
  let s0 := rotr32 7 x ^^^ rotr32 18 x ^^^ (x >>> 3)
  let s1 := rotr32 17 y ^^^ rotr32 19 y ^^^ (y >>> 10)
  w.push (toW32 (w.getD (i - 16) 0 + s0 + w.getD (i - 7) 0 + s1))

/-- The 64-word message schedule of one chunk. -/
def sha_schedule (w0 : Array Nat) : Array Nat :=
  (List.range 48).foldl (fun w j => sha_extend w (j + 16)) w0

/-- Compress one 16-word chunk into the running hash state. -/
def sha_chunk (hs : Sha256State) (ws : Array Nat) : Sha256State :=
  let st := (sha_K.zip (sha_schedule ws).toList).foldl sha_round hs
  { a := toW32 (hs.a + st.a), b := toW32 (hs.b + st.b)
    c := toW32 (hs.c + st.c), d := toW32 (hs.d + st.d)
    e := toW32 (hs.e + st.e), f := toW32 (hs.f + st.f)
    g := toW32 (hs.g + st.g), h := toW32 (hs.h + st.h) }

/-- The byte string of an ASCII text. -/
def str_bytes (s : String) : List Nat := s.data.map Char.toNat

/-- The `k` bytes of `n`, big-endian. -/
def be_bytes (k n : Nat) : List Nat :=
  (List.range k).map (fun i => (n >>> (8 * (k - 1 - i))) &&& 255)

/-- SHA-256 padding: `0x80`, zeros to 56 mod 64, 64-bit bit length. -/
def sha_pad (msg : List Nat) : List Nat :=
  msg ++ 128 :: List.replicate ((119 - msg.length % 64) % 64) 0 ++
    be_bytes 8 (8 * msg.length)

/-- Pack bytes into big-endian 32-bit words. -/
def words_of_bytes : List Nat → List Nat
  | b0 :: b1 :: b2 :: b3 :: rest =>
    (((b0 * 256 + b1) * 256 + b2) * 256 + b3) :: words_of_bytes rest
  | _ => []

/-- Split a word list into 16-word chunks (`n` = number of chunks). -/
def chunks16 : Nat → List Nat → List (Array Nat)
  | 0, _ => []
  | n + 1, ws => (ws.take 16).toArray :: chunks16 n (ws.drop 16)

/-- The SHA-256 digest of a text, as eight 32-bit words. -/
def sha256_digest (s : String) : Sha256State :=
  let ws := words_of_bytes (sha_pad (str_bytes s))
  (chunks16 (ws.length / 16) ws).foldl sha_chunk sha256_init

/-- One lowercase hex digit. -/
def hex_char (n : Nat) : Char :=
  if n < 10 then Char.ofNat (48 + n) else Char.ofNat (87 + n)

/-- The eight hex digits of a 32-bit word, most significant first. -/
def hex_word (w : Nat) : List Char :=
  (List.range 8).map (fun i => hex_char ((w >>> (28 - 4 * i)) &&& 15))

/-- The digest of `hashlib.sha256(...).hexdigest()` as a character list (64 digits). -/
def sha256_hex_chars (s : String) : List Char :=
  let d := sha256_digest s
  hex_word d.a ++ hex_word d.b ++ hex_word d.c ++ hex_word d.d ++
  hex_word d.e ++ hex_word d.f ++ hex_word d.g ++ hex_word d.h

/-- Model of `CloudSessionStorage._generate_session_id`: hash
`f"{username}_{timestamp}_{uuid4}"` and keep the first 32 hex digits.
`timestamp` stands for `str(datetime.now().timestamp())` and `uuidStr`
for the fresh `uuid.uuid4()` value. -/
def generate_session_id (username timestamp uuidStr : String) : String :=
  String.mk
    ((sha256_hex_chars (username ++ "_" ++ timestamp ++ "_" ++ uuidStr)).take
      32)

/-- Recogniser for a lowercase hexadecimal digit. -/
def is_hex_char (c : Char) : Bool :=
  (48 ≤ c.toNat ∧ c.toNat ≤ 57) ∨ (97 ≤ c.toNat ∧ c.toNat ≤ 102)

/-- Per-backend success of one `save_session` fan-out step: the volatile
backend always succeeds, every other backend succeeds when its medium
does. -/
def save_backend_ok (saveOk : String → Bool) (m : String) : Bool :=
  if m = "session_state" then true else saveOk m

/-- Per-backend success of one `clear_session` fan-out step (the database
outcome does not depend on the table contents, only on the pool and the
username, so it is read off `clear_database` at the empty table). -/
def clear_backend_ok (clearOk : String → Bool) (hasDb : Bool)
    (username : String) (m : String) : Bool :=
  if m = "session_state" then true
  else if m = "database" then (clear_database hasDb username []).2
  else clearOk m

/-! Concrete inputs used by counterexamples and witnesses. -/

/-- A dict with no `expires_at` key but a non-empty username and
`signout = False`. -/
def no_expiry_data : SessionData :=
  { username := some "alice", email := some "alice@x.com"
    role := some "Admin", signout := some false, timestamp := some "0"
    session_id := some "sid0", expires_at := none }

/-- A full dict whose expiration instant is exactly `100`. -/
def boundary_data : SessionData :=
  { username := some "alice", email := some "alice@x.com"
    role := some "Admin", signout := some false, timestamp := some "93"
    session_id := some "sid1", expires_at := some "100" }

/-- A dict already expired at instant `50`. -/
def expired_data : SessionData :=
  { username := some "alice", email := some "alice@x.com"
    role := some "Admin", signout := some false, timestamp := some "3"
    session_id := some "sid2", expires_at := some "10" }

/-- A dict still valid at instant `50`. -/
def valid_data : SessionData :=
  { username := some "alice", email := some "alice@x.com"
    role := some "Admin", signout := some false, timestamp := some "43"
    session_id := some "sid3", expires_at := some "100" }

/-- Backends for the fallthrough scenario: a stale stx cookie on top, a
still-valid database record below. -/
def demo_fetch (m : String) : Option SessionData :=
  if m = "stx_cookies" then some expired_data
  else if m = "database" then some valid_data
  else none

/-- Backends where only the database holds a (valid) record. -/
def db_only_fetch (m : String) : Option SessionData :=
  if m = "database" then some valid_data else none

/-- The volatile scope right after `save_session` at instant `0` with a
7-unit timeout, on a registry holding only the volatile backend. -/
def c4_scope : VolatileScope :=
  (save_session 0 7 "alice" "alice@x.com" "Admin" "sid4"
    (init_storage_methods false false false false) (fun _ => false)
    clear_session_state).1

/-- A full record whose `email` value is the empty string. -/
def empty_email_rec : SessionRecord :=
  { username := "alice", email := "", role := "Admin", signout := false
    timestamp := "0", session_id := "sid5", expires_at := "100" }

/-- A table row for user `"alice"` used by the blank-username clear
scenario. -/
def c10_row : DbRow :=
  { session_id := "sid7", username := "alice", email := "alice@x.com"
    role := "Admin", expires_at := 100, last_accessed := 1
    record := valid_data }

/-- A dict whose `expires_at` key is present with the empty-string value
(falsy in Python, so the source's truthiness guard skips the expiration
check on it). -/
def empty_expiry_data : SessionData :=
  { username := some "alice", email := some "alice@x.com"
    role := some "Admin", signout := some false, timestamp := some "0"
    session_id := some "sid8", expires_at := some "" }

/-- A full record with every string field non-empty. -/
def full_rec : SessionRecord :=
  { username := "alice", email := "alice@x.com", role := "Admin"
    signout := false, timestamp := "0", session_id := "sid6"
    expires_at := "100" }

/-- The dict the volatile backend synthesises when `c4_scope` is loaded at
instant 5 with a 7-unit timeout: its horizon is 12, not the 7 fixed at
save time. -/
def c4_loaded : SessionData :=
  { username := some "alice", email := some "alice@x.com"
    role := some "Admin", signout := some false, timestamp := some "5"
    session_id := some "sid4", expires_at := some "12" }

end CloudSession

namespace CloudSession

/-- The `save_session` loop, characterised: the scope is overwritten from
the record exactly when the volatile backend is registered (independently
of every other backend's outcome), and the success count is positive iff
some backend succeeded. -/
theorem save_session_go_spec (d : SessionData) (saveOk : String → Bool) :
    ∀ (ms : List String) (scope : VolatileScope),
      (save_session_go d saveOk ms scope).1 =
        (if "session_state" ∈ ms then save_session_state d else scope) ∧
      ((save_session_go d saveOk ms scope).2 > 0 ↔
        ∃ m ∈ ms, save_backend_ok saveOk m = true) := by
  intro ms
  induction ms with
  | nil => intro scope; simp [save_session_go]
  | cons m rest ih =>
    intro scope
    by_cases hm : m = "session_state"
    · subst hm
      simp only [save_session_go, if_pos rfl]
      refine ⟨?_, ?_⟩
      · rcases ih (save_session_state d) with ⟨h1, _⟩
        simp [h1]
      · simp [save_backend_ok]
    · have hm' : ¬("session_state" = m) := fun h => hm h.symm
      simp only [save_session_go, if_neg hm]
      rcases ih scope with ⟨h1, h2⟩
      refine ⟨?_, ?_⟩
      · simpa [hm'] using h1
      · by_cases hs : saveOk m = true
        · rw [if_pos hs]
          exact iff_of_true (Nat.succ_pos _)
            ⟨m, List.mem_cons_self m rest, by simp [save_backend_ok, hm, hs]⟩
        · have hs' : saveOk m = false := by simpa using hs
          rw [if_neg (by simp [hs'])]
          rw [h2]
          constructor
          · rintro ⟨x, hx, hPx⟩
            exact ⟨x, List.mem_cons_of_mem _ hx, hPx⟩
          · rintro ⟨x, hx, hPx⟩
            rcases List.mem_cons.mp hx with rfl | hx2
            · exact absurd hPx (by simp [save_backend_ok, hm, hs'])
            · exact ⟨x, hx2, hPx⟩

/-- Filtering twice with the same predicate filters once. -/
theorem filter_self_idem {α : Type} (p : α → Bool) (l : List α) :
    (l.filter p).filter p = l.filter p := by
  induction l with
  | nil => rfl
  | cons a l ih =>
    by_cases h : p a = true <;> simp [List.filter_cons, h, ih]

/-- Deleting a user's rows twice is the same as deleting them once. -/
theorem clear_database_idem (hasDb : Bool) (u : String) (db : List DbRow) :
    (clear_database hasDb u (clear_database hasDb u db).1).1 =
      (clear_database hasDb u db).1 := by
  unfold clear_database
  split_ifs with h
  · rfl
  · simp [filter_self_idem]

/-- Whether the database clear succeeds does not depend on the table. -/
theorem clear_database_snd (hasDb : Bool) (u : String) (db : List DbRow) :
    (clear_database hasDb u db).2 = (clear_database hasDb u []).2 := by
  unfold clear_database
  split_ifs <;> rfl

/-- The `clear_session` loop, characterised: the scope is blanked exactly
when the volatile backend is registered, the table is touched only by the
database backend, and the success count is positive iff some backend
succeeded. -/
theorem clear_session_go_spec (username : String) (clearOk : String → Bool)
    (hasDb : Bool) :
    ∀ (ms : List String) (scope : VolatileScope) (db : List DbRow),
      (clear_session_go username clearOk hasDb ms scope db).1 =
        (if "session_state" ∈ ms then clear_session_state else scope) ∧
      (clear_session_go username clearOk hasDb ms scope db).2.1 =
        (if "database" ∈ ms then (clear_database hasDb username db).1
         else db) ∧
      ((clear_session_go username clearOk hasDb ms scope db).2.2 > 0 ↔
        ∃ m ∈ ms, clear_backend_ok clearOk hasDb username m = true) := by
  intro ms
  induction ms with
  | nil => intro scope db; simp [clear_session_go]
  | cons m rest ih =>
    intro scope db
    by_cases hm : m = "session_state"
    · subst hm
      simp only [clear_session_go, if_pos rfl]
      rcases ih clear_session_state db with ⟨h1, h2, h3⟩
      refine ⟨by simp [h1], ?_, ?_⟩
      · rw [h2]
        simp
      · exact iff_of_true (Nat.succ_pos _)
          ⟨"session_state", List.mem_cons_self _ rest,
            by simp [clear_backend_ok]⟩
    · by_cases hd : m = "database"
      · subst hd
        have hm2 : ¬(("database" : String) = "session_state") := by decide
        simp only [clear_session_go, if_neg hm2, if_pos rfl, if_true]
        rcases ih scope (clear_database hasDb username db).1 with ⟨h1, h2, h3⟩
        refine ⟨by simpa using h1, ?_, ?_⟩
        · rw [h2]
          by_cases hr : ("database" : String) ∈ rest
          · simp [hr, clear_database_idem]
          · simp [hr]
        · by_cases hs : (clear_database hasDb username db).2 = true
          · rw [if_pos hs]
            refine iff_of_true (Nat.succ_pos _)
              ⟨"database", List.mem_cons_self _ rest, ?_⟩
            simp only [clear_backend_ok, if_neg hm2, if_pos rfl]
            rw [← clear_database_snd hasDb username db]
            exact hs
          · have hs2 : (clear_database hasDb username db).2 = false := by
              simpa using hs
            rw [if_neg (by simp [hs2])]
            rw [h3]
            constructor
            · rintro ⟨x, hx, hPx⟩
              exact ⟨x, List.mem_cons_of_mem _ hx, hPx⟩
            · rintro ⟨x, hx, hPx⟩
              rcases List.mem_cons.mp hx with rfl | hx2
              · exfalso
                rw [clear_backend_ok, if_neg hm2, if_pos rfl,
                  ← clear_database_snd hasDb username db, hs2] at hPx
                exact Bool.false_ne_true hPx
              · exact ⟨x, hx2, hPx⟩
      · have hm' : ¬("session_state" = m) := fun h => hm h.symm
        have hd' : ¬("database" = m) := fun h => hd h.symm
        simp only [clear_session_go, if_neg hm, if_neg hd]
        rcases ih scope db with ⟨h1, h2, h3⟩
        refine ⟨by simpa [hm'] using h1, by simpa [hd'] using h2, ?_⟩
        by_cases hs : clearOk m = true
        · rw [if_pos hs]
          exact iff_of_true (Nat.succ_pos _)
            ⟨m, List.mem_cons_self m rest,
              by simp [clear_backend_ok, hm, hd, hs]⟩
        · have hs' : clearOk m = false := by simpa using hs
          rw [if_neg (by simp [hs'])]
          rw [h3]
          constructor
          · rintro ⟨x, hx, hPx⟩
            exact ⟨x, List.mem_cons_of_mem _ hx, hPx⟩
          · rintro ⟨x, hx, hPx⟩
            rcases List.mem_cons.mp hx with rfl | hx2
            · exact absurd hPx (by simp [clear_backend_ok, hm, hd, hs'])
            · exact ⟨x, hx2, hPx⟩

/-- Whatever `load_session` accepts came verbatim from the accepting
backend and passed the validity predicate. -/
theorem load_session_go_accept (now timeout : Nat)
    (fetch : String → Option SessionData) (scope : VolatileScope) :
    ∀ (ms : List String) (m : String) (d : SessionData),
      load_session_go now timeout fetch scope ms = some (m, d) →
      backend_load now timeout fetch scope m = some d ∧
        is_session_valid now d = true ∧ m ∈ ms := by
  intro ms
  induction ms with
  | nil => intro m d h; simp [load_session_go] at h
  | cons x rest ih =>
    intro m d h
    simp only [load_session_go] at h
    rcases hb : backend_load now timeout fetch scope x with _ | d0
    · rw [hb] at h
      simp only [] at h
      rcases ih m d h with ⟨h1, h2, h3⟩
      exact ⟨h1, h2, List.mem_cons_of_mem _ h3⟩
    · rw [hb] at h
      simp only [] at h
      by_cases hv : is_session_valid now d0 = true
      · rw [if_pos hv] at h
        have hx : x = m ∧ d0 = d := by
          have := h
          injection this with h2
          injection h2 with ha hb2
          exact ⟨ha, hb2⟩
        rcases hx with ⟨rfl, rfl⟩
        exact ⟨hb, hv, List.mem_cons_self _ _⟩
      · rw [if_neg hv] at h
        rcases ih m d h with ⟨h1, h2, h3⟩
        exact ⟨h1, h2, List.mem_cons_of_mem _ h3⟩

/-- When every backend before `m` yields nothing valid and `m` yields a
valid dict, the loop stops at `m` — whatever comes after it. -/
theorem load_session_go_first (now timeout : Nat)
    (fetch : String → Option SessionData) (scope : VolatileScope) :
    ∀ (ms1 : List String) (m : String) (d : SessionData) (ms2 : List String),
      (∀ m' ∈ ms1, ∀ d',
        backend_load now timeout fetch scope m' = some d' →
          is_session_valid now d' = false) →
      backend_load now timeout fetch scope m = some d →
      is_session_valid now d = true →
      load_session_go now timeout fetch scope (ms1 ++ m :: ms2) =
        some (m, d) := by
  intro ms1
  induction ms1 with
  | nil =>
    intro m d ms2 _ hb hv
    simp only [List.nil_append, load_session_go]
    rw [hb]
    simp only []
    rw [if_pos hv]
  | cons x rest ih =>
    intro m d ms2 hinv hb hv
    simp only [List.cons_append, load_session_go]
    rcases hbx : backend_load now timeout fetch scope x with _ | d0
    · simp only []
      exact ih m d ms2
        (fun m2 hm2 => hinv m2 (List.mem_cons_of_mem _ hm2)) hb hv
    · simp only []
      have hv0 : is_session_valid now d0 = false :=
        hinv x (List.mem_cons_self _ _) d0 hbx
      rw [if_neg (by simp [hv0])]
      exact ih m d ms2
        (fun m2 hm2 => hinv m2 (List.mem_cons_of_mem _ hm2)) hb hv

/-- A hex digit below 16 renders as a lowercase hex character. -/
theorem hex_char_is_hex (n : Nat) (hn : n < 16) :
    is_hex_char (hex_char n) = true := by
  interval_cases n <;> decide

/-- Every character of `hex_word` is a hex character. -/
theorem hex_word_is_hex (w : Nat) (c : Char) (hc : c ∈ hex_word w) :
    is_hex_char c = true := by
  simp only [hex_word, List.mem_map, List.mem_range] at hc
  rcases hc with ⟨i, _, rfl⟩
  exact hex_char_is_hex _ (Nat.lt_succ_of_le (Nat.and_le_right))

/-- A hex digest has 64 characters. -/
theorem sha256_hex_chars_length (s : String) :
    (sha256_hex_chars s).length = 64 := by
  simp [sha256_hex_chars, hex_word]

/-- Every character of a hex digest is a hex character. -/
theorem sha256_hex_chars_hex (s : String) (c : Char)
    (hc : c ∈ sha256_hex_chars s) : is_hex_char c = true := by
  simp only [sha256_hex_chars, List.mem_append] at hc
  rcases hc with ((((((h | h) | h) | h) | h) | h) | h) | h <;>
    exact hex_word_is_hex _ _ h

/-- C1 counterexample: a record with a non-empty username, `signout`
false and NO `expires_at` key is accepted by `_is_session_valid`, so the
claimed conjunct "expires_at is present" does not hold of the code; and a
record whose `expires_at` key is present with the empty-string value is
also accepted (the truthiness guard skips the expiration check), so the
claimed "not in the past" conjunct fails on that present key too. -/
theorem C1_counterexample :
    is_session_valid 0 no_expiry_data = true ∧
    (¬ ∃ s, no_expiry_data.expires_at = some s) ∧
    empty_expiry_data.expires_at = some "" ∧
    is_session_valid 0 empty_expiry_data = true := by
  refine ⟨by decide, ?_, rfl, by decide⟩
  rintro ⟨s, hs⟩
  simp [no_expiry_data] at hs

/-- C1 (amended): `_is_session_valid` holds iff the username is non-empty,
`signout` is false, and the `expires_at` key is either absent, or present
with the empty-string (falsy) value, or a well-formed timestamp not in
the past at the evaluation instant. -/
theorem C1_validity_characterisation (now : Nat) (d : SessionData) :
    is_session_valid now d = true ↔
      d.username.getD "" ≠ "" ∧ d.signout.getD true = false ∧
        (d.expires_at = none ∨ d.expires_at = some "" ∨
          ∃ s e, d.expires_at = some s ∧ parse_timestamp s = some e ∧
            now ≤ e) := by
  unfold is_session_valid
  split_ifs with h1 h2
  · simp [h1]
  · simp [h1, h2]
  · have h2b : d.signout.getD true = false := by simpa using h2
    rcases hx : d.expires_at with _ | s
    · simp [h1, h2b]
    · by_cases hs : s = ""
      · subst hs
        simp [h1, h2b]
      · rcases hp : parse_timestamp s with _ | e
        · simp [h1, h2b, hs, hp]
        · by_cases hlt : now > e
          · simp only [hp, if_neg hs, if_pos hlt]
            simp [h1, h2b, hs, hp]
            omega
          · simp only [hp, if_neg hs, if_neg hlt]
            simp [h1, h2b, hs, hp]
            omega

/-- C5 counterexample: a record whose `expires_at` denotes instant 100 is
still accepted when the predicate is evaluated exactly at instant 100,
contradicting "false at or after `expires_at`". -/
theorem C5_counterexample :
    boundary_data.expires_at = some "100" ∧
    parse_timestamp "100" = some 100 ∧
    is_session_valid 100 boundary_data = true := by
  refine ⟨rfl, by decide, by decide⟩

/-- C5 (amended): `_is_session_valid` is false at every instant strictly
after the instant denoted by the record's `expires_at`; at the instant
exactly equal to `expires_at` the record can still be accepted. -/
theorem C5_expired_rejected (now e : Nat) (d : SessionData) (s : String)
    (hx : d.expires_at = some s) (hp : parse_timestamp s = some e)
    (hlt : e < now) :
    is_session_valid now d = false := by
  have hs : ¬(s = "") := by
    intro h
    subst h
    exact Option.noConfusion hp
  unfold is_session_valid
  split_ifs with h1 h2
  · rfl
  · rfl
  · rw [hx]
    simp [hs, hp, hlt]

/-- C5 witness: the amended fact at instant 101 on the record expiring at
instant 100. -/
theorem C5_witness :
    boundary_data.expires_at = some "100" ∧
    parse_timestamp "100" = some 100 ∧ (100 : Nat) < 101 ∧
    is_session_valid 101 boundary_data = false :=
  ⟨rfl, by decide, by decide,
    C5_expired_rejected 101 100 boundary_data "100" rfl (by decide)
      (by decide)⟩

/-- C2: backends are consulted in registry order; the first backend whose
record passes the validity predicate wins and its record is returned,
whatever the lower-priority backends after it hold (invalid records fall
through instead of stopping the scan). -/
theorem C2_first_valid_wins (now timeout : Nat)
    (fetch : String → Option SessionData) (scope : VolatileScope)
    (ms1 ms2 : List String) (m : String) (d : SessionData)
    (hfall : ∀ m2 ∈ ms1, ∀ d2,
      backend_load now timeout fetch scope m2 = some d2 →
        is_session_valid now d2 = false)
    (hm : backend_load now timeout fetch scope m = some d)
    (hv : is_session_valid now d = true) :
    load_session_go now timeout fetch scope (ms1 ++ m :: ms2) =
      some (m, d) ∧
    (load_session now timeout (ms1 ++ m :: ms2) fetch scope).record =
      some d := by
  have h :=
    load_session_go_first now timeout fetch scope ms1 m d ms2 hfall hm hv
  refine ⟨h, ?_⟩
  unfold load_session
  rw [h]

/-- C2 witness: the top backend holds an expired record, the database a
still-valid one; the load returns the valid one. -/
theorem C2_witness :
    is_session_valid 50 expired_data = false ∧
    is_session_valid 50 valid_data = true ∧
    (load_session 50 7 ["stx_cookies", "database", "session_state"]
        demo_fetch clear_session_state).record = some valid_data := by
  refine ⟨by decide, by decide, ?_⟩
  have hfall : ∀ m2 ∈ (["stx_cookies"] : List String), ∀ d2,
      backend_load 50 7 demo_fetch clear_session_state m2 = some d2 →
        is_session_valid 50 d2 = false := by
    intro m2 hm2 d2 hd2
    have hm2e : m2 = "stx_cookies" := by simpa using hm2
    subst hm2e
    have h0 : backend_load 50 7 demo_fetch clear_session_state
        "stx_cookies" = some expired_data := rfl
    rw [h0] at hd2
    have hd : expired_data = d2 := by injection hd2
    rw [← hd]
    decide
  exact (C2_first_valid_wins 50 7 demo_fetch clear_session_state
    ["stx_cookies"] ["session_state"] "database" valid_data hfall rfl
    (by decide)).2

/-- C3: `save_session` and `clear_session` return success exactly when at
least one backend succeeded (overall failure needs every backend to
fail), and the volatile scope is overwritten (save) or blanked (clear)
whenever the volatile backend is registered — independently of every
other backend's outcome; the registry always registers it. -/
theorem C3_fanout_overall (now timeout : Nat) (u em rl sid : String)
    (methods : List String) (saveOk clearOk : String → Bool)
    (scope : VolatileScope) (arg : Option String) (hasDb : Bool)
    (db : List DbRow) (hasStx hasLegacy hasJs hasDb2 : Bool) :
    ((save_session now timeout u em rl sid methods saveOk scope).2 = true ↔
      ∃ m ∈ methods, save_backend_ok saveOk m = true) ∧
    (save_session now timeout u em rl sid methods saveOk scope).1 =
      (if "session_state" ∈ methods then
        save_session_state (build_session_data now timeout u em rl sid)
       else scope) ∧
    ((clear_session arg methods clearOk hasDb scope db).2.2 = true ↔
      ∃ m ∈ methods,
        clear_backend_ok clearOk hasDb (resolve_username arg scope) m =
          true) ∧
    (clear_session arg methods clearOk hasDb scope db).1 =
      (if "session_state" ∈ methods then clear_session_state else scope) ∧
    "session_state" ∈ init_storage_methods hasStx hasLegacy hasJs hasDb2 := by
  obtain ⟨hs1, hs2⟩ :=
    save_session_go_spec (build_session_data now timeout u em rl sid)
      saveOk methods scope
  obtain ⟨hc1, hc2, hc3⟩ :=
    clear_session_go_spec (resolve_username arg scope) clearOk hasDb
      methods scope db
  refine ⟨?_, hs1, ?_, hc1, ?_⟩
  · rw [show (save_session now timeout u em rl sid methods saveOk scope).2 =
      decide ((save_session_go (build_session_data now timeout u em rl sid)
        saveOk methods scope).2 > 0) from rfl]
    rw [decide_eq_true_eq]
    exact hs2
  · rw [show (clear_session arg methods clearOk hasDb scope db).2.2 =
      decide ((clear_session_go (resolve_username arg scope) clearOk hasDb
        methods scope db).2.2 > 0) from rfl]
    rw [decide_eq_true_eq]
    exact hc3
  · simp [init_storage_methods]

/-- C9: when the volatile scope's username is empty, the database loader
answers `None` whatever the table holds — so after a restart (blank
scope, no client-side record) the server-durable backend alone cannot
restore a session and `load_session` over a database-plus-volatile
registry returns `None`. -/
theorem C9_database_needs_scope_username (now timeout : Nat)
    (hasDb : Bool) (db : List DbRow) :
    load_database now hasDb "" db = none ∧
    (load_session now timeout (init_storage_methods false false false true)
      (fun m =>
        if m = "database" then
          load_database now hasDb clear_session_state.username db
        else none)
      clear_session_state).record = none := by
  cases hasDb <;> exact ⟨rfl, rfl⟩

/-- C10: `clear_session` with no username argument while the volatile
scope's username is empty: `_clear_database` refuses (returns `False`)
and the table keeps every row, yet the call still reports success,
because the volatile clear counts as a succeeding backend. -/
theorem C10_clear_blank_username (s l j hasDb : Bool)
    (clearOk : String → Bool) (db : List DbRow) (scope : VolatileScope)
    (hu : scope.username = "") :
    clear_database hasDb (resolve_username none scope) db = (db, false) ∧
    (clear_session none (init_storage_methods s l j true) clearOk hasDb
      scope db).2.1 = db ∧
    (clear_session none (init_storage_methods s l j true) clearOk hasDb
      scope db).2.2 = true := by
  have hres : resolve_username none scope = "" := hu
  have hcd : clear_database hasDb "" db = (db, false) := by
    unfold clear_database
    rw [if_pos (Or.inr rfl)]
  obtain ⟨hc1, hc2, hc3⟩ :=
    clear_session_go_spec (resolve_username none scope) clearOk hasDb
      (init_storage_methods s l j true) scope db
  refine ⟨by rw [hres]; exact hcd, ?_, ?_⟩
  · rw [show (clear_session none (init_storage_methods s l j true) clearOk
        hasDb scope db).2.1 =
      (clear_session_go (resolve_username none scope) clearOk hasDb
        (init_storage_methods s l j true) scope db).2.1 from rfl]
    rw [hc2, hres, hcd]
    split_ifs <;> rfl
  · rw [show (clear_session none (init_storage_methods s l j true) clearOk
        hasDb scope db).2.2 =
      decide ((clear_session_go (resolve_username none scope) clearOk hasDb
        (init_storage_methods s l j true) scope db).2.2 > 0) from rfl]
    rw [decide_eq_true_eq, hc3]
    exact ⟨"session_state", by simp [init_storage_methods],
      by simp [clear_backend_ok]⟩

/-- C10 witness: a blank-scope clear with a populated table; the row
survives and the call reports success. -/
theorem C10_witness :
    (clear_session none (init_storage_methods true true true true)
      (fun _ => false) true clear_session_state [c10_row]).2.1 =
      [c10_row] ∧
    (clear_session none (init_storage_methods true true true true)
      (fun _ => false) true clear_session_state [c10_row]).2.2 = true :=
  ⟨(C10_clear_blank_username true true true true (fun _ => false)
      [c10_row] clear_session_state rfl).2.1,
   (C10_clear_blank_username true true true true (fun _ => false)
      [c10_row] clear_session_state rfl).2.2⟩

/-- C4 counterexample: a record saved at instant 0 with timeout 7 (horizon
`"7"`) and then loaded at instant 5 through the volatile backend comes
back with `expires_at = "12"` — the load renewed the horizon. -/
theorem C4_counterexample :
    (build_session_data 0 7 "alice" "alice@x.com" "Admin" "sid4").expires_at
      = some "7" ∧
    Option.bind
      (load_session 5 7 (init_storage_methods false false false false)
        (fun _ => none) c4_scope).record SessionData.expires_at =
      some "12" ∧
    some "12" ≠ (some "7" : Option String) := by
  refine ⟨rfl, ?_, by decide⟩
  rfl

/-- C4 (amended): `load_session` returns the accepted dict verbatim, so a
record served by a cookie, localStorage or database backend keeps the
`expires_at` fixed at creation; but a record served by the volatile
`session_state` backend is synthesised at load time with
`expires_at = load instant + session_timeout`, which can be later than
the horizon fixed at save time. -/
theorem C4_load_expiry (now timeout : Nat)
    (fetch : String → Option SessionData) (scope : VolatileScope)
    (ms : List String) (m : String) (d : SessionData)
    (h : load_session_go now timeout fetch scope ms = some (m, d)) :
    (load_session now timeout ms fetch scope).record = some d ∧
    (m ≠ "session_state" → fetch m = some d) ∧
    (∀ d2, load_session_state now timeout scope = some d2 →
      d2.expires_at = some (toString (now + timeout))) := by
  refine ⟨?_, ?_, ?_⟩
  · unfold load_session
    rw [h]
  · intro hm
    have hb := (load_session_go_accept now timeout fetch scope ms m d h).1
    unfold backend_load at hb
    rw [if_neg hm] at hb
    exact hb
  · intro d2 h2
    unfold load_session_state at h2
    split_ifs at h2 with hc
    injection h2 with h3
    rw [← h3]

/-- C4 witness: the amended fact at the concrete renewed-horizon run. -/
theorem C4_witness :
    load_session_go 5 7 (fun _ => none) c4_scope ["session_state"] =
      some ("session_state", c4_loaded) ∧
    (load_session 5 7 ["session_state"] (fun _ => none) c4_scope).record =
      some c4_loaded ∧
    c4_loaded.expires_at = some (toString (5 + 7)) := by
  have h : load_session_go 5 7 (fun _ => none) c4_scope
      ["session_state"] = some ("session_state", c4_loaded) := rfl
  exact ⟨h,
    (C4_load_expiry 5 7 (fun _ => none) c4_scope ["session_state"]
      "session_state" c4_loaded h).1,
    (C4_load_expiry 5 7 (fun _ => none) c4_scope ["session_state"]
      "session_state" c4_loaded h).2.2 c4_loaded rfl⟩

/-- C6: a record accepted from the `database` or `session_state` backend
is still returned and is re-saved to exactly the client-tier backends
present in the registry (stx cookies, legacy cookies, JS localStorage),
whose outcomes the source discards; a record accepted from a client-tier
backend triggers no re-save. -/
theorem C6_resave_tiering (now timeout : Nat) (methods : List String)
    (fetch : String → Option SessionData) (scope : VolatileScope)
    (m : String) (d : SessionData)
    (h : load_session_go now timeout fetch scope methods = some (m, d)) :
    ((m = "database" ∨ m = "session_state") →
      (load_session now timeout methods fetch scope).record = some d ∧
      (load_session now timeout methods fetch scope).resaved =
        ["stx_cookies", "legacy_cookies", "js_local_storage"].filter
          (fun x => x ∈ methods)) ∧
    (¬(m = "database" ∨ m = "session_state") →
      (load_session now timeout methods fetch scope).record = some d ∧
      (load_session now timeout methods fetch scope).resaved = []) := by
  unfold load_session
  rw [h]
  constructor
  · intro hm
    refine ⟨rfl, ?_⟩
    show (if m = "database" ∨ m = "session_state" then
      resave_targets methods else []) = _
    rw [if_pos hm]
    rfl
  · intro hm
    refine ⟨rfl, ?_⟩
    show (if m = "database" ∨ m = "session_state" then
      resave_targets methods else []) = _
    rw [if_neg hm]

/-- C6 witness: full registry, record recovered from the database; all
three client-tier backends are re-saved and the record is returned. -/
theorem C6_witness :
    (load_session 50 7 (init_storage_methods true true true true)
      db_only_fetch clear_session_state).record = some valid_data ∧
    (load_session 50 7 (init_storage_methods true true true true)
      db_only_fetch clear_session_state).resaved =
      ["stx_cookies", "legacy_cookies", "js_local_storage"] := by
  have h : load_session_go 50 7 db_only_fetch clear_session_state
      (init_storage_methods true true true true) =
      some ("database", valid_data) := by decide
  have main := (C6_resave_tiering 50 7
    (init_storage_methods true true true true) db_only_fetch
    clear_session_state "database" valid_data h).1 (Or.inl rfl)
  refine ⟨main.1, ?_⟩
  rw [main.2]
  decide

/-- C7 counterexample: a record with all seven fields present, a
non-empty username and `signout` false, but an empty-string email, does
not survive the legacy-cookie round trip — the loader drops falsy
values, so the decoded dict lacks the `email` key. -/
theorem C7_counterexample :
    empty_email_rec.username ≠ "" ∧ empty_email_rec.signout = false ∧
    legacy_decode (legacy_encode empty_email_rec) ≠
      some empty_email_rec.toData := by
  refine ⟨by decide, rfl, by decide⟩

/-- C7 (amended): the base64/JSON stx-cookie codec round-trips every full
record (no loss of `expires_at` or `session_id`); the stringly legacy
codec round-trips full records provided every string field is non-empty
(empty values are dropped by its loader). -/
theorem C7_roundtrip (r : SessionRecord) :
    stx_decode (stx_encode r) = r.toData ∧
    (r.username ≠ "" → r.email ≠ "" → r.role ≠ "" → r.timestamp ≠ "" →
      r.session_id ≠ "" → r.expires_at ≠ "" →
      legacy_decode (legacy_encode r) = some r.toData) := by
  constructor
  · cases r
    rfl
  · intro h1 h2 h3 h4 h5 h6
    unfold legacy_encode legacy_decode
    cases hsg : r.signout <;>
      simp [py_str_bool, h1, h2, h3, h4, h5, h6, SessionRecord.toData, hsg]

/-- C7 witness: both codecs round-trip the all-fields-non-empty record. -/
theorem C7_witness :
    stx_decode (stx_encode full_rec) = full_rec.toData ∧
    legacy_decode (legacy_encode full_rec) = some full_rec.toData :=
  ⟨(C7_roundtrip full_rec).1,
   (C7_roundtrip full_rec).2 (by decide) (by decide) (by decide)
     (by decide) (by decide) (by decide)⟩

/-- C8: `_generate_session_id` is the truncation to 32 characters of the
SHA-256 hex digest of `username ++ "_" ++ timestamp ++ "_" ++ nonce`; the
token always has 32 characters, all lowercase hexadecimal; and two saves
for the same subject with fresh (distinct) nonces yield distinct tokens,
exhibited on a concrete pair of sequential-save inputs. -/
theorem C8_session_id_shape (u t n : String) :
    generate_session_id u t n =
      String.mk
        ((sha256_hex_chars (u ++ "_" ++ t ++ "_" ++ n)).take 32) ∧
    (generate_session_id u t n).length = 32 ∧
    (generate_session_id u t n).data.all is_hex_char = true ∧
    generate_session_id "alice" "1700000000.123456"
        "3f2504e0-4f89-41d3-9a0c-0305e82c3301" ≠
      generate_session_id "alice" "1700000000.223456"
        "6ba7b810-9dad-41d1-80b4-00c04fd430c8" := by
  refine ⟨rfl, ?_, ?_, ?_⟩
  · show (List.take 32
      (sha256_hex_chars (u ++ "_" ++ t ++ "_" ++ n))).length = 32
    rw [List.length_take, sha256_hex_chars_length]
    decide
  · rw [List.all_eq_true]
    intro c hc
    have hc2 : c ∈ (sha256_hex_chars (u ++ "_" ++ t ++ "_" ++ n)).take 32 :=
      hc
    exact sha256_hex_chars_hex _ c (List.take_subset _ _ hc2)
  · decide

end CloudSession
